import Mathlib

/-!
Verification of the SerraStats front-end core (src/src/App.tsx): the
filter-and-aggregate pipeline (handleSearch, getStatsByFlag,
getCountriesByCount) and the fetch/refresh state transitions (fetchData,
handleRefresh), shallowly embedded in Lean.
-/

/-- The optional payload of one statistic record (interface StatData):
fields temps, nom, drapeau, temps_actuel, each optional. -/
structure StatData where
  temps : Option Int
  nom : Option String
  drapeau : Option String
  temps_actuel : Option String
deriving DecidableEq

/-- One statistic record (interface Stat): payload, id, type, user_id. -/
structure Stat where
  data : StatData
  id : String
  type : String
  user_id : Int
deriving DecidableEq

/-- One entry of the ranked output (interface CountryCount). -/
structure CountryCount where
  name : String
  count : Nat
  percentage : String
deriving DecidableEq

/-- Value of the maximal leading run of decimal digits of a character list,
or none when it starts with no digit. Helper for the parseInt model. -/
def parseDecimalDigits (cs : List Char) : Option Nat :=
  let ds := cs.takeWhile Char.isDigit
  if ds.isEmpty then none
  else some (ds.foldl (fun acc c => acc * 10 + (c.toNat - 48)) 0)

/-- Model of the ECMAScript parseInt(s) call of handleSearch, restricted to
the decimal forms a numeric input field produces: leading whitespace is
skipped, an optional sign is read, then the maximal run of decimal digits is
converted; none models the NaN result (no digit found). The hexadecimal 0x
prefix form of parseInt is not modelled. -/
def js_parseInt (s : String) : Option Int :=
  match s.toList.dropWhile Char.isWhitespace with
  | '-' :: rest => (parseDecimalDigits rest).map (fun n => -(n : Int))
  | '+' :: rest => (parseDecimalDigits rest).map (fun n => (n : Int))
  | rest => (parseDecimalDigits rest).map (fun n => (n : Int))

/-- handleSearch from App.tsx, over explicit arguments: starting from
allStats, apply one filter per non-empty criterion string. A record passes
the identifier filter when stat.user_id === parseInt(userId); the NaN result
of parseInt compares unequal to every number, modelled by comparing with an
Option value. The other two filters are exact string equality. -/
def handleSearch (allStats : List Stat) (userId type drapeau : String) : List Stat :=
  let f1 := if userId = "" then allStats
    else allStats.filter (fun stat => some stat.user_id == js_parseInt userId)
  let f2 := if type = "" then f1
    else f1.filter (fun stat => stat.type == type)
  if drapeau = "" then f2
  else f2.filter (fun stat => stat.data.drapeau == some drapeau)

/-- The bucket key of getStatsByFlag: stat.data.drapeau || "Tous drapeaux".
The JS || operator takes the right operand when the left is undefined or the
empty string (both falsy). -/
def flagNameOf (d : Option String) : String :=
  match d with
  | some s => if s = "" then "Tous drapeaux" else s
  | none => "Tous drapeaux"

/-- One step of the reduce in getStatsByFlag: push the record onto the bucket
of the given key, creating the bucket at the end when absent. A JS object
keeps its string keys in insertion order, modelled as an association list. -/
def pushGrouped (acc : List (String × List Stat)) (key : String) (s : Stat) :
    List (String × List Stat) :=
  match acc with
  | [] => [(key, [s])]
  | (k, v) :: rest =>
      if k = key then (k, v ++ [s]) :: rest else (k, v) :: pushGrouped rest key s

/-- getStatsByFlag from App.tsx, over an explicit filteredStats argument:
group the records by flag name, in insertion order. -/
def getStatsByFlag (filteredStats : List Stat) : List (String × List Stat) :=
  filteredStats.foldl
    (fun acc stat => pushGrouped acc (flagNameOf stat.data.drapeau) stat) []

/-- Model of Number.prototype.toFixed(1) on a nonnegative value: round to the
nearest tenth, half upward, then print the integer part, a dot, and the single
tenths digit. The source computes on IEEE doubles; the model uses exact
rational arithmetic, which agrees on the small counts and totals involved. -/
def toFixed1 (q : ℚ) : String :=
  let n : Nat := (⌊q * 10 + 1 / 2⌋).toNat
  toString (n / 10) ++ "." ++ toString (n % 10)

/-- The percentage expression of getCountriesByCount:
total > 0 ? ((stats.length / total) * 100).toFixed(1) + "%" : "0%". -/
def percentageOf (count total : Nat) : String :=
  if 0 < total then toFixed1 ((count : ℚ) / (total : ℚ) * 100) ++ "%" else "0%"

/-- The sort order of the comparator (a, b) => b.count - a.count in
getCountriesByCount: a may precede b when the counts are non-increasing. -/
def countGe (a b : CountryCount) : Prop := b.count ≤ a.count

instance : DecidableRel countGe :=
  fun a b => inferInstanceAs (Decidable (b.count ≤ a.count))

instance : IsTotal CountryCount countGe :=
  ⟨fun a b => Nat.le_total b.count a.count⟩

instance : IsTrans CountryCount countGe :=
  ⟨fun _ _ _ hab hbc => Nat.le_trans hbc hab⟩

/-- getCountriesByCount from App.tsx, over an explicit filteredStats argument:
map each bucket of getStatsByFlag to its name, count and percentage of the
filtered total, then sort by count descending. Array.prototype.sort is a
stable sort by the comparator, modelled by insertion sort. -/
def getCountriesByCount (filteredStats : List Stat) : List CountryCount :=
  List.insertionSort countGe
    ((getStatsByFlag filteredStats).map (fun p =>
      { name := p.1, count := p.2.length,
        percentage := percentageOf p.2.length filteredStats.length }))

/-- The component state of App that the embedded handlers read and write:
the three criterion input strings, the filtered and full record lists, the
loading flag and the error message. -/
structure AppState where
  userId : String
  type : String
  drapeau : String
  filteredStats : List Stat
  allStats : List Stat
  loading : Bool
  error : Option String
deriving DecidableEq

/-- Outcome of the network call awaited by fetchData: an HTTP response with a
status and a parsed body, or a transport or parse failure carrying the message
of the thrown Error. -/
inductive FetchResult where
  | response (status : Nat) (body : List Stat)
  | failure (message : String)
deriving DecidableEq

/-- response.ok of the fetch API: the status lies in the 2xx range. -/
def responseOk (status : Nat) : Bool := 200 ≤ status && status ≤ 299

/-- fetchData from App.tsx as a state transformer given the fetch outcome:
setLoading(true) and setError(null) first; on an ok response, setAllStats with
the body; on a non-ok status, throw Erreur HTTP with the status, caught by
setError; on a transport failure, setError with its message; in every case
setLoading(false) in the finally block. -/
def fetchData (s : AppState) (r : FetchResult) : AppState :=
  let s1 := { s with loading := true, error := none }
  let s2 :=
    match r with
    | .response status body =>
        if responseOk status then { s1 with allStats := body }
        else { s1 with error := some ("Erreur HTTP: " ++ toString status) }
    | .failure message => { s1 with error := some message }
  { s2 with loading := false }

/-- handleRefresh from App.tsx: re-invoke fetchData and clear filteredStats. -/
def handleRefresh (s : AppState) (r : FetchResult) : AppState :=
  { fetchData s r with filteredStats := [] }

/-- handleSearch as the state transformer the search button triggers:
recompute filteredStats from allStats and the three criterion fields of the
current state. -/
def handleSearchState (s : AppState) : AppState :=
  { s with filteredStats := handleSearch s.allStats s.userId s.type s.drapeau }

/-- Sample record: flag FR, type erreur, user 5. -/
def sampleStatFR1 : Stat :=
  { data := { temps := none, nom := none, drapeau := some "FR", temps_actuel := none },
    id := "e1", type := "erreur", user_id := 5 }

/-- Sample record: flag FR, type passer, user 6. -/
def sampleStatFR2 : Stat :=
  { data := { temps := none, nom := none, drapeau := some "FR", temps_actuel := none },
    id := "e2", type := "passer", user_id := 6 }

/-- Sample record: flag DE, type erreur, user 7. -/
def sampleStatDE : Stat :=
  { data := { temps := none, nom := none, drapeau := some "DE", temps_actuel := none },
    id := "e3", type := "erreur", user_id := 7 }

/-- Sample record with no flag value. -/
def sampleStatNoFlag : Stat :=
  { data := { temps := none, nom := none, drapeau := none, temps_actuel := none },
    id := "e4", type := "indice", user_id := 8 }

/-- Sample component state holding one loaded record. -/
def sampleState : AppState :=
  { userId := "", type := "", drapeau := "", filteredStats := [],
    allStats := [sampleStatFR1], loading := false, error := none }

/-- Membership in a conditionally applied filter: the element was already in
the list, and satisfies the predicate whenever the filter was applied. -/
theorem mem_condFilter {α : Type} {c : Prop} [Decidable c] {l : List α}
    {p : α → Bool} {s : α} (h : s ∈ if c then l else l.filter p) :
    s ∈ l ∧ (¬ c → p s = true) := by
  split at h
  · exact ⟨h, fun hc => absurd ‹c› hc⟩
  · exact ⟨(List.mem_filter.mp h).1, fun _ => (List.mem_filter.mp h).2⟩

/-- Evaluation of the percentage of two records out of three. -/
theorem percentageOf_two_of_three : percentageOf 2 3 = "66.7%" := by
  norm_num [percentageOf, toFixed1]
  decide

/-- Evaluation of the percentage of one record out of three. -/
theorem percentageOf_one_of_three : percentageOf 1 3 = "33.3%" := by
  norm_num [percentageOf, toFixed1]
  decide

/-- The percentage of a whole nonempty set is the literal 100.0%. -/
theorem percentageOf_all (n : Nat) (h : 0 < n) : percentageOf n n = "100.0%" := by
  have hn : ((n : ℚ) / (n : ℚ) * 100) = 100 := by
    rw [div_self (by exact_mod_cast h.ne.symm)]
    ring
  rw [percentageOf, if_pos h, hn]
  norm_num [toFixed1]
  decide

/-- Claim C1: for every record set and every criteria value, the computation
of handleSearch returns a subset of the record set in which every element
satisfies every present criterion, with logical AND across criteria: numeric
equality of user_id with the parsed identifier, and exact string equality of
type and data.drapeau with the type and flag criteria. -/
theorem handleSearch_subset_matches (allStats : List Stat)
    (userId type drapeau : String) :
    (handleSearch allStats userId type drapeau).Sublist allStats ∧
    ∀ s ∈ handleSearch allStats userId type drapeau,
      (userId ≠ "" → js_parseInt userId = some s.user_id) ∧
      (type ≠ "" → s.type = type) ∧
      (drapeau ≠ "" → s.data.drapeau = some drapeau) := by
  constructor
  · unfold handleSearch
    split
    · split
      · split
        · exact List.Sublist.refl _
        · exact List.filter_sublist _
      · split
        · exact List.filter_sublist _
        · exact (List.filter_sublist _).trans (List.filter_sublist _)
    · split
      · split
        · exact List.filter_sublist _
        · exact (List.filter_sublist _).trans (List.filter_sublist _)
      · split
        · exact (List.filter_sublist _).trans (List.filter_sublist _)
        · exact ((List.filter_sublist _).trans (List.filter_sublist _)).trans
            (List.filter_sublist _)
  · intro s hs
    unfold handleSearch at hs
    have h3 := mem_condFilter hs
    have h2 := mem_condFilter h3.1
    have h1 := mem_condFilter h2.1
    refine ⟨fun hu => ?_, fun ht => ?_, fun hd => ?_⟩
    · have := h1.2 hu
      exact (eq_of_beq this).symm
    · have := h2.2 ht
      exact eq_of_beq this
    · have := h3.2 hd
      exact eq_of_beq this

/-- Witness for C1 at a concrete record set and criteria. -/
theorem handleSearch_subset_matches_witness :
    (handleSearch [sampleStatFR1, sampleStatFR2] "5" "" "").Sublist
      [sampleStatFR1, sampleStatFR2] :=
  (handleSearch_subset_matches [sampleStatFR1, sampleStatFR2] "5" "" "").1

/-- Claim C2: filtering with all three criterion fields empty returns the
record set unchanged; handleSearch is the identity on its record-set argument
when no criterion is present. -/
theorem handleSearch_empty_criteria_id (allStats : List Stat) :
    handleSearch allStats "" "" "" = allStats := by
  simp [handleSearch]

/-- Claim C5 counterexample: on one record and the non-numeric identifier
string abc, handleSearch does not behave as if the criterion were absent; it
returns the empty list instead of the record set. -/
theorem handleSearch_malformed_counterexample :
    handleSearch [sampleStatFR1] "abc" "" "" = [] ∧
    ¬ handleSearch [sampleStatFR1] "abc" "" "" = [sampleStatFR1] := by
  constructor
  · decide
  · decide

/-- Claim C5 amended: for every record set and every criteria value whose
identifier field is a non-empty string on which parseInt finds no digits
(NaN), handleSearch returns the empty list: the NaN identifier compares
unequal to every user_id, so the identifier filter removes every record. -/
theorem handleSearch_malformed_empty (allStats : List Stat)
    (userId type drapeau : String) (hu : userId ≠ "")
    (hp : js_parseInt userId = none) :
    handleSearch allStats userId type drapeau = [] := by
  unfold handleSearch
  rw [if_neg hu]
  have hfilter :
      allStats.filter (fun stat => some stat.user_id == js_parseInt userId) = [] := by
    rw [hp]
    simp
  rw [hfilter]
  split <;> split <;> simp

/-- Witness for the amended C5 at a concrete record set and identifier. -/
theorem handleSearch_malformed_empty_witness :
    handleSearch [sampleStatFR1] "abc" "" "" = [] :=
  handleSearch_malformed_empty [sampleStatFR1] "abc" "" "" (by decide) (by decide)

/-- Pushing one record into the grouping raises the total bucket size by one. -/
theorem sum_lengths_pushGrouped (acc : List (String × List Stat)) (k : String)
    (s : Stat) :
    ((pushGrouped acc k s).map (fun p => p.2.length)).sum
      = ((acc.map (fun p => p.2.length)).sum) + 1 := by
  induction acc with
  | nil => simp [pushGrouped]
  | cons hd tl ih =>
      obtain ⟨k0, v⟩ := hd
      by_cases hk : k0 = k <;> simp [pushGrouped, hk, ih] <;> omega

/-- Folding the grouping step over a record list adds its length to the total
bucket size. -/
theorem sum_lengths_foldGroup (l : List Stat) (acc : List (String × List Stat)) :
    (((l.foldl (fun acc stat => pushGrouped acc (flagNameOf stat.data.drapeau) stat)
        acc)).map (fun p => p.2.length)).sum
      = ((acc.map (fun p => p.2.length)).sum) + l.length := by
  induction l generalizing acc with
  | nil => simp
  | cons s l ih =>
      rw [List.foldl_cons, ih, sum_lengths_pushGrouped]
      simp
      omega

/-- The buckets of getStatsByFlag hold exactly as many records as the input. -/
theorem sum_lengths_getStatsByFlag (l : List Stat) :
    ((getStatsByFlag l).map (fun p => p.2.length)).sum = l.length := by
  rw [getStatsByFlag, sum_lengths_foldGroup]
  simp

/-- Claim C3: for every record set, the counts of the entries of
getCountriesByCount sum to the length of the record set: grouping by flag
partitions the filtered records, so none is dropped or double-counted. -/
theorem getCountriesByCount_counts_sum (l : List Stat) :
    ((getCountriesByCount l).map (fun c => c.count)).sum = l.length := by
  have hperm :
      List.Perm ((getCountriesByCount l).map (fun c => c.count))
        (((getStatsByFlag l).map (fun p =>
            ({ name := p.1, count := p.2.length,
               percentage := percentageOf p.2.length l.length } : CountryCount))).map
            (fun c => c.count)) := by
    rw [getCountriesByCount]
    exact (List.perm_insertionSort countGe _).map _
  rw [hperm.sum_eq, List.map_map]
  exact sum_lengths_getStatsByFlag l

/-- Claim C4: the output of getCountriesByCount is sorted non-increasingly by
count: for adjacent entries at positions i and i + 1, the count at i is at
least the count at i + 1. -/
theorem getCountriesByCount_counts_antitone (l : List Stat) (i : Nat)
    (h : i + 1 < (getCountriesByCount l).length) :
    ((getCountriesByCount l).get ⟨i + 1, h⟩).count
      ≤ ((getCountriesByCount l).get ⟨i, Nat.lt_of_succ_lt h⟩).count := by
  have hs : List.Sorted countGe (getCountriesByCount l) := by
    rw [getCountriesByCount]
    exact List.sorted_insertionSort countGe _
  exact hs.rel_get_of_lt (by simp)

/-- Witness for C4 on a concrete two-entry ranking. -/
theorem getCountriesByCount_counts_antitone_witness :
    ((getCountriesByCount [sampleStatFR1, sampleStatDE]).get ⟨1, by decide⟩).count
      ≤ ((getCountriesByCount [sampleStatFR1, sampleStatDE]).get ⟨0, by decide⟩).count :=
  getCountriesByCount_counts_antitone [sampleStatFR1, sampleStatDE] 0 (by decide)

/-- Claim C8: on a non-2xx HTTP response such as status 500, fetchData leaves
the loading state, enters the error state with a message containing the status
code, and leaves the previously loaded allStats unchanged; the retry action
handleRefresh re-invokes the fetch, so on a later ok response the new body
replaces allStats while filteredStats is cleared. -/
theorem fetchData_http_error (s : AppState) (status : Nat) (body : List Stat)
    (hstatus : responseOk status = false) :
    ((fetchData s (.response status body)).loading = false ∧
      (∃ pre post,
        (fetchData s (.response status body)).error
          = some (pre ++ toString status ++ post)) ∧
      (fetchData s (.response status body)).allStats = s.allStats) ∧
    (∀ body2 : List Stat,
      (handleRefresh s (.response 200 body2)).allStats = body2 ∧
      (handleRefresh s (.response 200 body2)).filteredStats = []) := by
  refine ⟨⟨?_, ⟨"Erreur HTTP: ", "", ?_⟩, ?_⟩, fun body2 => ⟨?_, ?_⟩⟩
  · simp [fetchData, hstatus]
  · simp [fetchData, hstatus]
  · simp [fetchData, hstatus]
  · simp [handleRefresh, fetchData, responseOk]
  · simp [handleRefresh, fetchData, responseOk]

/-- Witness for C8 at status 500 on the sample state. -/
theorem fetchData_http_error_witness :
    (((fetchData sampleState (.response 500 [])).loading = false ∧
      (∃ pre post,
        (fetchData sampleState (.response 500 [])).error
          = some (pre ++ toString 500 ++ post)) ∧
      (fetchData sampleState (.response 500 [])).allStats = sampleState.allStats) ∧
    (∀ body2 : List Stat,
      (handleRefresh sampleState (.response 200 body2)).allStats = body2 ∧
      (handleRefresh sampleState (.response 200 body2)).filteredStats = [])) :=
  fetchData_http_error sampleState 500 [] (by decide)

/-- Claim C9: the search action recomputes filteredStats from allStats alone,
never from the previous filtered result: two states agreeing on allStats and
the criterion fields produce the same filtered result regardless of their
filteredStats history, and repeating a search is idempotent. -/
theorem handleSearchState_recomputes (s1 s2 : AppState)
    (hall : s1.allStats = s2.allStats) (hu : s1.userId = s2.userId)
    (ht : s1.type = s2.type) (hd : s1.drapeau = s2.drapeau) :
    (handleSearchState s1).filteredStats = (handleSearchState s2).filteredStats ∧
    handleSearchState (handleSearchState s1) = handleSearchState s1 := by
  constructor
  · simp [handleSearchState, hall, hu, ht, hd]
  · simp [handleSearchState]

/-- Witness for C9: a state with a stale filtered result and the same state
searched afresh yield the same result, and the search is idempotent. -/
theorem handleSearchState_recomputes_witness :
    (handleSearchState { sampleState with filteredStats := [sampleStatDE] }).filteredStats
      = (handleSearchState sampleState).filteredStats ∧
    handleSearchState (handleSearchState { sampleState with filteredStats := [sampleStatDE] })
      = handleSearchState { sampleState with filteredStats := [sampleStatDE] } :=
  handleSearchState_recomputes { sampleState with filteredStats := [sampleStatDE] }
    sampleState (by decide) (by decide) (by decide) (by decide)

/-- Looking a key up after pushing one record: the pushed key gains the record
at the end of its bucket, every other key is untouched. -/
theorem lookup_pushGrouped (acc : List (String × List Stat)) (key k : String)
    (s : Stat) :
    (pushGrouped acc key s).lookup k
      = if k = key then some (((acc.lookup key).getD []) ++ [s])
        else acc.lookup k := by
  induction acc with
  | nil =>
      by_cases h : k = key
      · subst h
        simp [pushGrouped, List.lookup_cons]
      · simp [pushGrouped, List.lookup_cons, beq_false_of_ne h, h]
  | cons hd tl ih =>
      obtain ⟨k0, v⟩ := hd
      by_cases hk : k0 = key
      · subst hk
        by_cases h : k = k0
        · subst h
          simp [pushGrouped, List.lookup_cons]
        · simp [pushGrouped, List.lookup_cons, beq_false_of_ne h, h]
      · by_cases h : k = k0
        · subst h
          simp [pushGrouped, hk, List.lookup_cons]
        · simp [pushGrouped, hk, List.lookup_cons, beq_false_of_ne h,
            beq_false_of_ne (Ne.symm hk), ih, h]

/-- The bucket of getStatsByFlag at a key holds exactly the records whose flag
name is that key, in input order. -/
theorem lookup_getStatsByFlag (l : List Stat) (k : String) :
    ((getStatsByFlag l).lookup k).getD []
      = l.filter (fun s => flagNameOf s.data.drapeau == k) := by
  suffices h : ∀ acc : List (String × List Stat),
      (((l.foldl (fun acc stat =>
          pushGrouped acc (flagNameOf stat.data.drapeau) stat) acc).lookup k).getD [])
        = ((acc.lookup k).getD [])
          ++ l.filter (fun s => flagNameOf s.data.drapeau == k) by
    have h0 := h []
    simpa [getStatsByFlag, List.lookup] using h0
  induction l with
  | nil => intro acc; simp
  | cons s l ih =>
      intro acc
      rw [List.foldl_cons, ih (pushGrouped acc (flagNameOf s.data.drapeau) s),
        lookup_pushGrouped]
      by_cases hk : k = flagNameOf s.data.drapeau
      · rw [if_pos hk]
        simp [List.filter_cons, hk.symm]
      · rw [if_neg hk]
        have : (flagNameOf s.data.drapeau == k) = false := by
          simpa using fun h => hk h.symm
        simp [List.filter_cons, this]

/-- Claim C7: a single record with no flag value aggregates to exactly one
bucket named with the sentinel Tous drapeaux, count 1 and percentage 100.0%;
in general, every record lacking a flag value lands in the bucket the sentinel
key names. -/
theorem noFlag_sentinel_bucket (r : Stat) (hr : r.data.drapeau = none) :
    getCountriesByCount [r]
      = [{ name := "Tous drapeaux", count := 1, percentage := "100.0%" }] ∧
    ∀ (l : List Stat) (s : Stat), s ∈ l → s.data.drapeau = none →
      s ∈ ((getStatsByFlag l).lookup "Tous drapeaux").getD [] := by
  constructor
  · have hg : getStatsByFlag [r] = [("Tous drapeaux", [r])] := by
      simp [getStatsByFlag, pushGrouped, flagNameOf, hr]
    rw [getCountriesByCount, hg]
    simp only [List.map, List.length, List.insertionSort, List.orderedInsert,
      Nat.zero_add]
    rw [percentageOf_all 1 (by decide)]
  · intro l s hsl hsd
    rw [lookup_getStatsByFlag]
    simp [List.mem_filter, hsl, flagNameOf, hsd]

/-- Witness for C7 at the concrete flagless sample record. -/
theorem noFlag_sentinel_bucket_witness :
    (getCountriesByCount [sampleStatNoFlag]
      = [{ name := "Tous drapeaux", count := 1, percentage := "100.0%" }] ∧
    ∀ (l : List Stat) (s : Stat), s ∈ l → s.data.drapeau = none →
      s ∈ ((getStatsByFlag l).lookup "Tous drapeaux").getD []) :=
  noFlag_sentinel_bucket sampleStatNoFlag (by decide)

/-- Claim C6: three records with flags FR, FR, DE and empty criteria run
through the pipeline to exactly the ranked list FR with count 2 and 66.7%,
then DE with count 1 and 33.3%. -/
theorem pipeline_fr_fr_de :
    getCountriesByCount
        (handleSearch [sampleStatFR1, sampleStatFR2, sampleStatDE] "" "" "")
      = [{ name := "FR", count := 2, percentage := "66.7%" },
         { name := "DE", count := 1, percentage := "33.3%" }] := by
  have hsearch :
      handleSearch [sampleStatFR1, sampleStatFR2, sampleStatDE] "" "" ""
        = [sampleStatFR1, sampleStatFR2, sampleStatDE] := by
    simp [handleSearch]
  have hg : getStatsByFlag [sampleStatFR1, sampleStatFR2, sampleStatDE]
      = [("FR", [sampleStatFR1, sampleStatFR2]), ("DE", [sampleStatDE])] := by
    decide
  rw [hsearch, getCountriesByCount, hg]
  simp only [List.map, List.length]
  norm_num
  rw [percentageOf_two_of_three, percentageOf_one_of_three]
  simp [List.insertionSort, List.orderedInsert, countGe]

/-- Claim C10: every entry of getCountriesByCount is emitted with a positive
filtered total, so the 0% guard branch is never taken, and its percentage
string is an integer part, a dot, exactly one decimal digit, and a percent
sign. -/
theorem percentage_wellformed (l : List Stat) (c : CountryCount)
    (hc : c ∈ getCountriesByCount l) :
    0 < l.length ∧
    ∃ m k : Nat, k < 10 ∧ c.percentage = toString m ++ "." ++ toString k ++ "%" := by
  rw [getCountriesByCount, List.mem_insertionSort] at hc
  obtain ⟨p, hp, rfl⟩ := List.mem_map.mp hc
  have hl : l ≠ [] := by
    intro h
    subst h
    simp [getStatsByFlag] at hp
  have hlen : 0 < l.length := List.length_pos.mpr hl
  refine ⟨hlen, ?_⟩
  simp only [percentageOf, if_pos hlen, toFixed1]
  exact ⟨_, _, Nat.mod_lt _ (by norm_num), rfl⟩

/-- Witness for C10 at a concrete one-record set and its single entry. -/
theorem percentage_wellformed_witness :
    0 < ([sampleStatFR1] : List Stat).length ∧
    ∃ m k : Nat, k < 10 ∧
      ({ name := "FR", count := 1,
         percentage := percentageOf 1 1 } : CountryCount).percentage
        = toString m ++ "." ++ toString k ++ "%" :=
  percentage_wellformed [sampleStatFR1] _ (by
    simp [getCountriesByCount, getStatsByFlag, pushGrouped, flagNameOf,
      sampleStatFR1, List.insertionSort, List.orderedInsert])
